import Mathlib

/-!
Verification model of the `ethtxprint` package: a derivation engine
(`NewTransaction`) that reconciles an Ethereum transaction with its receipt
and containing block into a snapshot record, and a presentation formatter
(`Transaction.render`, Go `Transaction.String`) that renders the snapshot as
a fixed multi-line report.

Machine integers are modelled as `Nat`/`Int` with explicit `% 2^64`
reductions where Go wraps; `*big.Int` pointer fields become `Option Int`;
the fallible RPC reads become `Except String` parameters; Go durations are
integer nanoseconds.
-/

namespace EthTxPrint

def u64Mod : Nat := 18446744073709551616

def i64Half : Nat := 9223372036854775808

/-- Go `int64(n)` for a `uint64` value `n`: two's-complement reinterpretation. -/
def natToInt64 (n : Nat) : Int :=
  (((n + i64Half) % u64Mod : Nat) : Int) - (i64Half : Int)

/-- Go `(*big.Int).Int64()`: the low 64 bits of the magnitude, reinterpreted as
int64, with the big integer's sign applied. -/
def intInt64 (x : Int) : Int :=
  if 0 ≤ x then natToInt64 (x.toNat % u64Mod) else -(natToInt64 (x.natAbs % u64Mod))

def hexDigitChar (n : Nat) : Char :=
  if n < 10 then Char.ofNat (48 + n) else Char.ofNat (87 + n)

def hexPadAux : Nat → Nat → List Char → List Char
  | 0, _, acc => acc
  | k + 1, n, acc => hexPadAux k (n / 16) (hexDigitChar (n % 16) :: acc)

/-- Lowercase hex rendering of `n`, zero-padded to `k` digits. -/
def hexPad (n k : Nat) : String :=
  String.mk (hexPadAux k n [])

/-- Go `common.Hash.String()`: `0x` + 64 lowercase hex digits. -/
def hashString (n : Nat) : String := "0x" ++ hexPad n 64

/-- Go `common.Address.String()`: `0x` + 40 hex digits.  The go-ethereum
library applies EIP-55 checksum casing, which only changes the case of the
digits `a`-`f`; this model renders lowercase, which coincides with the
library output on every address whose hex expansion contains only `0`-`9`
(all concrete addresses used in this development are of that form). -/
def addressString (n : Nat) : String := "0x" ++ hexPad n 40

/-- Go `fmt` `%x` of a byte slice: two lowercase hex digits per byte. -/
def bytesHex (l : List Nat) : String :=
  String.join (l.map (fun b => hexPad b 2))

def natDecimalPad (n k : Nat) : String :=
  let s := toString n
  String.mk (List.replicate (k - s.length) '0') ++ s

def trimTrailingZeros (s : String) : String :=
  String.mk ((s.toList.reverse.dropWhile (· = '0')).reverse)

/-- Modelled from the spec: the external `ethunit` decimal-scaling helper
(out of scope per spec §1, assumed correct), rendering `x / 10^k` as an
exact minimal decimal string, per spec §4.2 "exact decimal conversion of the
arbitrary-precision integer (no floating-point rounding)".  `k = 18` gives
`WeiToEther(x).Text('f', -1)`, `k = 9` gives `WeiToGwei(x).Text('f', -1)`. -/
def scaledDecimalText (x : Int) (k : Nat) : String :=
  let sign := if x < 0 then "-" else ""
  let n := x.natAbs
  let ip := n / 10 ^ k
  let fp := n % 10 ^ k
  if fp = 0 then sign ++ toString ip
  else sign ++ toString ip ++ "." ++ trimTrailingZeros (natDecimalPad fp k)

def weiToEtherText (x : Int) : String := scaledDecimalText x 18

def weiToGweiText (x : Int) : String := scaledDecimalText x 9

/-- Civil date (year, month, day-of-month) from a day count with day 0 =
0000-03-01 of the proleptic Gregorian calendar (the standard era-based
conversion, matching Go's `time` package date computation). -/
def civilFromDays (z : Nat) : Nat × Nat × Nat :=
  let era := z / 146097
  let doe := z % 146097
  let yoe := (doe - doe / 1460 + doe / 36524 - doe / 146096) / 365
  let doy := doe - (365 * yoe + yoe / 4 - yoe / 100)
  let mp := (5 * doy + 2) / 153
  let d := doy - (153 * mp + 2) / 5 + 1
  let m := if mp < 10 then mp + 3 else mp - 9
  let y := yoe + era * 400 + (if m ≤ 2 then 1 else 0)
  (y, m, d)

/-- Day-of-month of the instant `days` whole days after Go's zero time
0001-01-01 (0001-01-01 is day 306 of the 0000-03-01 era). -/
def dayOfMonthFromZeroTime (days : Nat) : Nat :=
  (civilFromDays (days + 306)).2.2

def nsPerSecond : Int := 1000000000
def nsPerMinute : Int := 60000000000
def nsPerHour : Int := 3600000000000
def nsPerDay : Int := 86400000000000

/-- Go `time.Time{}.Add(d).Day()` for a non-negative duration `d` in
nanoseconds (the only way the formatter uses it). -/
def goDurDay (d : Int) : Nat := dayOfMonthFromZeroTime (d / nsPerDay).toNat

/-- Go `time.Time{}.Add(d).Hour()` for a non-negative duration `d`. -/
def goDurHour (d : Int) : Int := (d / nsPerHour) % 24

/-- Go `time.Time{}.Add(d).Minute()` for a non-negative duration `d`. -/
def goDurMinute (d : Int) : Int := (d / nsPerMinute) % 60

/-- Decimal rendering of a rational, exact whenever the denominator divides
`10^18` (every value this development evaluates it on is an integer). -/
def ratDecimalText (q : ℚ) : String :=
  let sign := if q < 0 then "-" else ""
  let n := q.num.natAbs
  let d := q.den
  let ip := n / d
  let fp := n % d
  if fp = 0 then sign ++ toString ip
  else sign ++ toString ip ++ "." ++ trimTrailingZeros (natDecimalPad (fp * 10 ^ 18 / d) 18)

/-- Go `fmt` output when the `%d` verb is applied to a `float64` argument:
a bad-verb marker wrapping the `%v` rendering of the value.  Exact for the
integral values reached in this development. -/
def goVerbDOnFloat (q : ℚ) : String := "%!d(float64=" ++ ratDecimalText q ++ ")"

/-- Go `%.2f` of a non-negative rational: two fixed decimal places. -/
def pctText (q : ℚ) : String :=
  let n := (q * 100 + 1 / 2).floor.toNat
  toString (n / 100) ++ "." ++ natDecimalPad (n % 100) 2

def pad2 (n : Nat) : String := natDecimalPad n 2

def pad4 (n : Nat) : String := natDecimalPad n 4

/-- Go `time.Time.String()` of a whole-second instant, rendered in UTC
("2006-01-02 15:04:05 +0000 UTC" layout; the Go program renders in the
process-local zone, an ambient dependency outside the snapshot; no claim
depends on this string's content). -/
def goTimeString (sec : Int) : String :=
  let days := Int.fdiv sec 86400
  let sod := (Int.fmod sec 86400).toNat
  let c := civilFromDays (days + 719468).toNat
  pad4 c.1 ++ "-" ++ pad2 c.2.1 ++ "-" ++ pad2 c.2.2 ++ " " ++
    pad2 (sod / 3600) ++ ":" ++ pad2 (sod % 3600 / 60) ++ ":" ++ pad2 (sod % 60) ++
    " +0000 UTC"

/-- Snapshot status, Go `status` constants `StatusUnknown = 0`,
`StatusPending`, `StatusFailed`, `StatusSuccessful` (iota). -/
inductive Status where
  | unknown
  | pending
  | failed
  | successful
  deriving DecidableEq, Repr

/-- Go `txTypeMessage`. -/
def txTypeMessage (t : Nat) : String :=
  if t = 0 then "Legacy"
  else if t = 2 then "EIP-1559"
  else "Unknown"

/-- Go `Transaction` struct.  Pointer fields (`*common.Address`, `*big.Int`)
are `Option`; `time.Time` is Unix seconds (`Int`, via `int64(b.Time())`);
`float64` `gasUsedPct` is kept as an exact rational (its value is computed
in float64 by Go; no theorem here asserts its numeric value). -/
structure Transaction where
  hash : Nat
  status : Status
  block : Option Int
  blockIndex : Nat
  blockTime : Int
  confirmations : Nat
  fromAddr : Option Nat
  toAddr : Option Nat
  value : Option Int
  txFee : Option Int
  gasPrice : Option Int
  txType : Nat
  gasLimit : Nat
  gasUsed : Option Int
  gasUsedPct : ℚ
  baseFee : Option Int
  maxFee : Option Int
  maxPriorityFee : Option Int
  burntFees : Option Int
  txSavings : Option Int
  nonce : Nat
  data : List Nat
  deriving Repr

/-- The Go literal that seeds the snapshot with only the hash set: Go zero
values for every other field
(`time.Time{}` is 0001-01-01 00:00:00 UTC = Unix second -62135596800). -/
def Transaction.init (hash : Nat) : Transaction where
  hash := hash
  status := .unknown
  block := none
  blockIndex := 0
  blockTime := -62135596800
  confirmations := 0
  fromAddr := none
  toAddr := none
  value := none
  txFee := none
  gasPrice := none
  txType := 0
  gasLimit := 0
  gasUsed := none
  gasUsedPct := 0
  baseFee := none
  maxFee := none
  maxPriorityFee := none
  burntFees := none
  txSavings := none
  nonce := 0
  data := []

/-- The `hours > 24` branch of the formatter's duration switch:
`fmt.Sprintf("%d days %d hours ago", t.Day()-1, t.Hour())` with
`t := time.Time{}.Add(d)`. -/
def daysHoursMsg (d : Int) : String :=
  toString (goDurDay d - 1) ++ " days " ++ toString (goDurHour d) ++ " hours ago"

/-- The `hours > 0` branch: `fmt.Sprintf("%d hours %d minutes ago",
t.Hour(), t.Minute())`. -/
def hoursMinutesMsg (d : Int) : String :=
  toString (goDurHour d) ++ " hours " ++ toString (goDurMinute d) ++ " minutes ago"

/-- The `d.Minutes() > 0` branch: `fmt.Sprintf("%d mins ago", d.Minutes())` —
a `%d` verb applied to the `float64` `d.Minutes()`. -/
def minsMsg (d : Int) : String :=
  goVerbDOnFloat ((d : ℚ) / 60000000000) ++ " mins ago"

/-- The default branch: `fmt.Sprintf("%d seconds ago", d.Seconds())` —
a `%d` verb applied to the `float64` `d.Seconds()`. -/
def secondsMsg (d : Int) : String :=
  goVerbDOnFloat ((d : ℚ) / 1000000000) ++ " seconds ago"

/-- The duration switch of `Transaction.String` (source lines 96-108), on
`d = now - blockTime` in nanoseconds.  The float comparisons
`d.Hours() > 24`, `d.Hours() > 0` and `d.Minutes() > 0` are exact at these
thresholds and equal the integer comparisons `d > 24h`, `d > 0`, `d > 0`. -/
def blockDurMsg (d : Int) : String :=
  if 24 * nsPerHour < d then daysHoursMsg d
  else if 0 < d then hoursMinutesMsg d
  else if 0 < d then minsMsg d
  else secondsMsg d

def maxFeeLine (mf : Int) : String :=
  "\nMax Fee Per Gas:          " ++ weiToEtherText mf ++ " Ether (" ++
    weiToGweiText mf ++ " Gwei)"

def maxPriorityLine (mpf : Int) : String :=
  "\nMax Priority Fee Per Gas: " ++ weiToEtherText mpf ++ " Ether (" ++
    weiToGweiText mpf ++ " Gwei)"

def savingsLine (s : Int) : String :=
  "\nTxn Savings:              " ++ weiToEtherText s ++ " Ether"

def burntLine (b : Int) (savings : String) : String :=
  "\nBurnt Fees:               " ++ weiToEtherText b ++ " Ether" ++ savings

/-- Go `Transaction.String` (the presentation formatter).  `nowNs` is the
value of `time.Now().UTC()` in Unix nanoseconds — an ambient input the Go
code reads from the clock, not from the snapshot.  The result is `none`
exactly when Go would dereference a nil pointer and panic (each pointer
field the formatter reads is bound; the Go evaluation order only determines
which panic fires first, which the `Option` model does not observe). -/
def Transaction.render (t : Transaction) (nowNs : Int) : Option String := do
  let f ← t.fromAddr
  let toA ← t.toAddr
  let v ← t.value
  let gp ← t.gasPrice
  let core ←
    if t.status = Status.pending then
      some ("(Pending)", "Pending", "0", "Pending", "0", "Pending", "")
    else do
      let block ← t.block
      let txFee ← t.txFee
      let gasUsed ← t.gasUsed
      let baseFee ← t.baseFee
      let burnt ← t.burntFees
      let savings ←
        if t.txType = 2 then do
          let s ← t.txSavings
          some (savingsLine s)
        else some ""
      let d := nowNs - t.blockTime * nsPerSecond
      let blockDur := blockDurMsg d
      let timeMsg := blockDur ++ " (" ++ goTimeString t.blockTime ++ ")"
      let blockMsg := toString block ++ " (" ++ toString t.confirmations ++ " confirmations)"
      let txFeeMsg := weiToEtherText txFee
      let gasUsedMsg := toString gasUsed ++ " (" ++ pctText t.gasUsedPct ++ "%)"
      let baseFeeMsg := toString (intInt64 baseFee) ++ " Wei (" ++ weiToGweiText baseFee ++ " Gwei)"
      let noncePosition := toString t.blockIndex
      some (blockMsg, timeMsg, txFeeMsg, gasUsedMsg, baseFeeMsg, noncePosition,
        burntLine burnt savings)
  let maxMsgs ←
    if t.txType = 2 then do
      let mf ← t.maxFee
      let mpf ← t.maxPriorityFee
      some (maxFeeLine mf, maxPriorityLine mpf)
    else some ("", "")
  some ("Transaction Hash:         " ++ hashString t.hash ++
    "\nBlock:                    " ++ core.1 ++
    "\nTimestamp:                " ++ core.2.1 ++
    "\nFrom:                     " ++ addressString f ++
    "\nTo:                       " ++ addressString toA ++
    "\nValue:                    " ++ weiToGweiText v ++ " Ether" ++
    "\nTransaction Fee:          " ++ core.2.2.1 ++ " Ether" ++
    "\nGas Price:                " ++ weiToEtherText gp ++ " Ether (" ++ weiToGweiText gp ++ " Gwei)" ++
    "\nTxn Type:                 " ++ toString t.txType ++ " (" ++ txTypeMessage t.txType ++ ")" ++
    "\nGas Limit:                " ++ toString t.gasLimit ++
    "\nGas Used By Transaction:  " ++ core.2.2.2.1 ++
    "\nBase Fee Per Gas:         " ++ core.2.2.2.2.1 ++ maxMsgs.1 ++ maxMsgs.2 ++ core.2.2.2.2.2.2 ++
    "\nNonce (position):         " ++ toString t.nonce ++ " (" ++ core.2.2.2.2.2.1 ++ ")" ++
    "\nInput Data:               " ++ bytesHex t.data ++
    "\n")

/-- The fields of the fetched `*types.Transaction` that `NewTransaction`
reads (via its accessors `To`, `Value`, `Type`, `Gas`, `Nonce`, `Data`,
`GasTipCap`, `GasFeeCap`, `ChainId`).  `To()` is nil for contract-creation
transactions.  For legacy transactions go-ethereum's `GasTipCap`/`GasFeeCap`
both return the gas price. -/
structure TxData where
  toAddr : Option Nat
  value : Int
  txType : Nat
  gasLimit : Nat
  nonce : Nat
  data : List Nat
  gasTipCap : Int
  gasFeeCap : Int
  chainId : Int
  deriving Repr

/-- The fields of a fetched `*types.Block` that `NewTransaction` reads. -/
structure BlockData where
  number : Nat
  baseFee : Int
  time : Nat
  deriving Repr

/-- The fields of a fetched `*types.Receipt` that `NewTransaction` reads. -/
structure ReceiptData where
  status : Nat
  blockNumber : Nat
  transactionIndex : Nat
  gasUsed : Nat
  deriving Repr

/-- The signer the engine constructs for sender recovery: `NewEIP155Signer`
for type 0x0, `NewLondonSigner` for type 0x2. -/
inductive SignerKind where
  | eip155
  | london
  deriving DecidableEq, Repr

/-- The sender-recovery switch of `NewTransaction` (source lines 176-182):
for type 0x0 or 0x2 it runs `tx.AsMessage(signer, ...)` — modelled by the
`recover` oracle, which may fail — and for any other type byte no recovery
runs, the zero-valued `types.Message` remains, and `m.From()` is the all-zero
address. -/
def recoverFrom (tx : TxData) (recover : SignerKind → Int → Except String Nat) :
    Except String Nat :=
  if tx.txType = 0 then recover .eip155 tx.chainId
  else if tx.txType = 2 then recover .london tx.chainId
  else .ok 0

/-- Go `head.NumberU64() - r.BlockNumber.Uint64()`: wrapping unsigned 64-bit
subtraction of the two block numbers. -/
def u64Sub (h i : Nat) : Nat :=
  (h % u64Mod + (u64Mod - i % u64Mod)) % u64Mod

/-- The receipt-status switch of `NewTransaction` (source lines 206-213). -/
def statusOfReceipt (s : Nat) : Status :=
  if s = 0 then .failed
  else if s = 1 then .successful
  else .unknown

/-- Go `NewTransaction` (the derivation engine).  The RPC reads
(`TransactionByHash`, `BlockByNumber(nil)`, `TransactionReceipt`,
`BlockByHash`) and signature recovery are the engine's external inputs,
passed as `Except` results / an oracle; the engine consumes them in source
order, returning early with the partial snapshot on a read error, and — per
source lines 183-185 — returning the partial snapshot with a nil error when
recovery fails. -/
def NewTransaction (hash : Nat)
    (txRes : Except String (TxData × Bool))
    (headRes : Except String BlockData)
    (recover : SignerKind → Int → Except String Nat)
    (receiptRes : Except String ReceiptData)
    (blockRes : Except String BlockData) :
    Transaction × Option String :=
  let t0 := Transaction.init hash
  match txRes with
  | .error e => (t0, some e)
  | .ok (tx, pending) =>
    match headRes with
    | .error e => (t0, some e)
    | .ok head =>
      let t1 := { t0 with
        toAddr := tx.toAddr
        value := some tx.value
        txType := tx.txType
        gasLimit := tx.gasLimit
        nonce := tx.nonce
        data := tx.data }
      match recoverFrom tx recover with
      | .error _ => (t1, none)
      | .ok fromA =>
        let t2 := { t1 with fromAddr := some fromA }
        if pending then
          ({ t2 with
            status := Status.pending
            gasPrice := some (tx.gasTipCap + head.baseFee)
            maxFee := some 0
            maxPriorityFee := some 0 }, none)
        else
          match receiptRes with
          | .error e => (t2, some e)
          | .ok r =>
            match blockRes with
            | .error e => (t2, some e)
            | .ok b =>
              let gasUsed : Int := r.gasUsed
              let gasPrice := tx.gasTipCap + b.baseFee
              let t3 := { t2 with
                status := statusOfReceipt r.status
                confirmations := u64Sub head.number r.blockNumber
                block := some (b.number : Int)
                blockIndex := r.transactionIndex
                blockTime := natToInt64 b.time
                gasPrice := some gasPrice
                txFee := some (gasPrice * gasUsed)
                baseFee := some b.baseFee
                gasUsed := some gasUsed
                gasUsedPct := (r.gasUsed : ℚ) / (tx.gasLimit : ℚ) * 100
                burntFees := some (gasUsed * b.baseFee)
                maxFee := some tx.gasFeeCap
                maxPriorityFee := some tx.gasTipCap }
              let t4 :=
                if tx.txType = 2 then
                  { t3 with
                    txSavings := some (gasUsed * (tx.gasFeeCap - (b.baseFee + tx.gasTipCap))) }
                else t3
              (t4, none)

/-! Concrete fixtures used by witnesses and counterexamples. -/

def txLegacyFix : TxData :=
  { toAddr := some 4, value := 5, txType := 0, gasLimit := 21000, nonce := 9,
    data := [1, 2], gasTipCap := 7, gasFeeCap := 7, chainId := 1 }

def txFeeMarketFix : TxData :=
  { txLegacyFix with txType := 2, gasTipCap := 2, gasFeeCap := 10 }

def txAccessListFix : TxData :=
  { txLegacyFix with txType := 1 }

def headFix : BlockData := { number := 100, baseFee := 3, time := 1600000000 }

def inclFix : BlockData := { number := 95, baseFee := 3, time := 1600000000 }

def inclHighBaseFix : BlockData := { number := 95, baseFee := 20, time := 1600000000 }

def receiptFix : ReceiptData :=
  { status := 1, blockNumber := 95, transactionIndex := 2, gasUsed := 21000 }

def receiptOddFix : ReceiptData := { receiptFix with status := 7 }

def recoverOK : SignerKind → Int → Except String Nat := fun _ _ => .ok 3

def recoverFail : SignerKind → Int → Except String Nat := fun _ _ => .error "invalid signature"

/-- Helper: the wrapping u64 subtraction agrees with plain subtraction when
the minuend is at or ahead of the subtrahend and fits in 64 bits. -/
theorem u64Sub_of_le (h i : Nat) (hle : i ≤ h) (hlt : h < u64Mod) :
    u64Sub h i = h - i := by
  unfold u64Sub u64Mod at *
  omega

/-- C9: the formatter dereferences the snapshot's `from` and `to` pointers
unconditionally, so rendering a snapshot whose `to` is absent (contract
creation) or whose `from` is unset (sender recovery failed or skipped)
nil-panics instead of producing a report (modelled as `none`). -/
theorem render_nil_deref (t : Transaction) (now : Int)
    (h : t.fromAddr = none ∨ t.toAddr = none) :
    t.render now = none := by
  rcases h with h | h
  · unfold Transaction.render
    rw [h]
    rfl
  · cases hf : t.fromAddr with
    | none =>
      unfold Transaction.render
      rw [hf]
      rfl
    | some f =>
      unfold Transaction.render
      rw [hf]
      show t.toAddr >>= _ = none
      rw [h]
      rfl

/-- C9 witness: the freshly initialised snapshot (both address pointers nil)
cannot be rendered. -/
theorem render_nil_deref_witness : (Transaction.init 5).render 0 = none :=
  render_nil_deref (Transaction.init 5) 0 (Or.inl rfl)

/-- C7 counterexample: at an elapsed time of exactly 24 hours — which the
claim's "≥ 24 hours" places in the days-and-hours branch — the formatter
takes the strict `hours > 24` comparison's else-branch and renders
"0 hours 0 minutes ago", not the days-and-hours string. -/
theorem blockDur_boundary_counterexample :
    blockDurMsg (24 * nsPerHour) = "0 hours 0 minutes ago"
    ∧ daysHoursMsg (24 * nsPerHour) = "1 days 0 hours ago"
    ∧ blockDurMsg (24 * nsPerHour) ≠ daysHoursMsg (24 * nsPerHour) := by
  refine ⟨by decide, by decide, by decide⟩

/-- C7 amended: the duration string chooses days+hours only strictly above
24 hours; any positive elapsed time up to and including 24 hours renders as
hours+minutes (so the minutes-only branch is unreachable for positive
durations); a non-positive elapsed time falls to the seconds format. -/
theorem blockDur_amended (d : Int) :
    (24 * nsPerHour < d → blockDurMsg d = daysHoursMsg d)
    ∧ (0 < d → d ≤ 24 * nsPerHour → blockDurMsg d = hoursMinutesMsg d)
    ∧ (d ≤ 0 → blockDurMsg d = secondsMsg d) := by
  simp only [blockDurMsg, nsPerHour]
  refine ⟨fun h => ?_, fun h1 h2 => ?_, fun h => ?_⟩ <;>
    split_ifs <;> first | rfl | omega

/-- C7 witness: the amended branch selection evaluated at 25 hours, at one
minute, and at zero elapsed time. -/
theorem blockDur_amended_witness :
    blockDurMsg (25 * nsPerHour) = daysHoursMsg (25 * nsPerHour)
    ∧ blockDurMsg nsPerMinute = hoursMinutesMsg nsPerMinute
    ∧ blockDurMsg 0 = secondsMsg 0 :=
  ⟨(blockDur_amended (25 * nsPerHour)).1 (by decide),
   (blockDur_amended nsPerMinute).2.1 (by decide) (by decide),
   (blockDur_amended 0).2.2 (by decide)⟩

/-- C2: on the mined branch the engine sets the effective gas price to the
transaction's tip cap plus the containing block's base fee, and the fee paid
to exactly `gasPriceEffective × gasUsed` in arbitrary-precision integers,
for both fee models (the statement never constrains `tx.txType`). -/
theorem effective_price_fee (hash : Nat) (tx : TxData) (head : BlockData)
    (recover : SignerKind → Int → Except String Nat) (fa : Nat)
    (r : ReceiptData) (b : BlockData)
    (hrec : recoverFrom tx recover = .ok fa) :
    (NewTransaction hash (.ok (tx, false)) (.ok head) recover (.ok r) (.ok b)).1.gasPrice
        = some (tx.gasTipCap + b.baseFee)
    ∧ (NewTransaction hash (.ok (tx, false)) (.ok head) recover (.ok r) (.ok b)).1.txFee
        = some ((tx.gasTipCap + b.baseFee) * (r.gasUsed : Int))
    ∧ (NewTransaction hash (.ok (tx, false)) (.ok head) recover (.ok r) (.ok b)).1.status
        ≠ Status.pending
    ∧ (NewTransaction hash (.ok (tx, false)) (.ok head) recover (.ok r) (.ok b)).2 = none := by
  simp only [NewTransaction, hrec]
  by_cases htt : tx.txType = 2 <;>
    simp [htt, statusOfReceipt] <;>
    split_ifs <;> simp

/-- C2 witness: a legacy transaction with tip cap 7 mined in a block with
base fee 3 and 21000 gas used pays 10 × 21000 = 210000 wei. -/
theorem effective_price_fee_witness :
    (NewTransaction 1 (.ok (txLegacyFix, false)) (.ok headFix) recoverOK
        (.ok receiptFix) (.ok inclFix)).1.gasPrice = some 10
    ∧ (NewTransaction 1 (.ok (txLegacyFix, false)) (.ok headFix) recoverOK
        (.ok receiptFix) (.ok inclFix)).1.txFee = some 210000 := by
  have h := effective_price_fee 1 txLegacyFix headFix recoverOK 3 receiptFix inclFix rfl
  exact ⟨by simpa using h.1, by simpa using h.2.1⟩

/-- C3: for a mined transaction, `confirmations` is the wrapping unsigned
64-bit difference `headBlockNumber − inclusionBlockNumber`; when the head is
at or ahead of the inclusion block (and in 64-bit range) this is the plain
difference, and it is monotonically non-decreasing across derivations of the
same transaction at equal-or-greater head heights. -/
theorem confirmations_correct (hash : Nat) (tx : TxData)
    (recover : SignerKind → Int → Except String Nat) (fa : Nat)
    (r : ReceiptData) (b : BlockData)
    (hrec : recoverFrom tx recover = .ok fa) :
    (∀ head : BlockData,
      (NewTransaction hash (.ok (tx, false)) (.ok head) recover (.ok r) (.ok b)).1.confirmations
        = u64Sub head.number r.blockNumber)
    ∧ (∀ head : BlockData, r.blockNumber ≤ head.number → head.number < u64Mod →
      (NewTransaction hash (.ok (tx, false)) (.ok head) recover (.ok r) (.ok b)).1.confirmations
        = head.number - r.blockNumber)
    ∧ (∀ head1 head2 : BlockData,
        r.blockNumber ≤ head1.number → head1.number ≤ head2.number → head2.number < u64Mod →
      (NewTransaction hash (.ok (tx, false)) (.ok head1) recover (.ok r) (.ok b)).1.confirmations
        ≤ (NewTransaction hash (.ok (tx, false)) (.ok head2) recover (.ok r) (.ok b)).1.confirmations) := by
  have key : ∀ head : BlockData,
      (NewTransaction hash (.ok (tx, false)) (.ok head) recover (.ok r) (.ok b)).1.confirmations
        = u64Sub head.number r.blockNumber := by
    intro head
    simp only [NewTransaction, hrec]
    by_cases htt : tx.txType = 2 <;> simp [htt]
  refine ⟨key, fun head h1 h2 => ?_, fun head1 head2 h1 h2 h3 => ?_⟩
  · rw [key head, u64Sub_of_le head.number r.blockNumber h1 h2]
  · rw [key head1, key head2,
      u64Sub_of_le head1.number r.blockNumber h1 (lt_of_le_of_lt h2 h3),
      u64Sub_of_le head2.number r.blockNumber (le_trans h1 h2) h3]
    omega

/-- C3 witness: inclusion block 95 observed at heads 100 and 102 yields 5
then 7 confirmations. -/
theorem confirmations_correct_witness :
    (NewTransaction 1 (.ok (txLegacyFix, false)) (.ok headFix) recoverOK
        (.ok receiptFix) (.ok inclFix)).1.confirmations = 5
    ∧ (NewTransaction 1 (.ok (txLegacyFix, false)) (.ok headFix) recoverOK
          (.ok receiptFix) (.ok inclFix)).1.confirmations
        ≤ (NewTransaction 1
            (.ok (txLegacyFix, false))
            (.ok { number := 102, baseFee := 3, time := 1600000000 }) recoverOK
            (.ok receiptFix) (.ok inclFix)).1.confirmations := by
  have h := confirmations_correct 1 txLegacyFix recoverOK 3 receiptFix inclFix rfl
  refine ⟨?_, ?_⟩
  · have h2 := h.2.1 headFix (by decide) (by decide)
    simpa using h2
  · exact h.2.2 headFix { number := 102, baseFee := 3, time := 1600000000 }
      (by decide) (by decide) (by decide)

/-- C4: the mined branch maps the receipt status code 0 → Failed,
1 → Successful and anything else → Unknown; a status byte outside {0, 1} is
not an error — the derivation returns a nil error and every other
mined-branch field is still populated from the receipt and block. -/
theorem receipt_status_mapping (hash : Nat) (tx : TxData) (head : BlockData)
    (recover : SignerKind → Int → Except String Nat) (fa : Nat)
    (r : ReceiptData) (b : BlockData)
    (hrec : recoverFrom tx recover = .ok fa) :
    (NewTransaction hash (.ok (tx, false)) (.ok head) recover (.ok r) (.ok b)).2 = none
    ∧ (r.status = 0 →
      (NewTransaction hash (.ok (tx, false)) (.ok head) recover (.ok r) (.ok b)).1.status
        = Status.failed)
    ∧ (r.status = 1 →
      (NewTransaction hash (.ok (tx, false)) (.ok head) recover (.ok r) (.ok b)).1.status
        = Status.successful)
    ∧ (r.status ≠ 0 → r.status ≠ 1 →
      (NewTransaction hash (.ok (tx, false)) (.ok head) recover (.ok r) (.ok b)).1.status
        = Status.unknown)
    ∧ (NewTransaction hash (.ok (tx, false)) (.ok head) recover (.ok r) (.ok b)).1.block
        = some (b.number : Int)
    ∧ (NewTransaction hash (.ok (tx, false)) (.ok head) recover (.ok r) (.ok b)).1.confirmations
        = u64Sub head.number r.blockNumber
    ∧ (NewTransaction hash (.ok (tx, false)) (.ok head) recover (.ok r) (.ok b)).1.blockIndex
        = r.transactionIndex
    ∧ (NewTransaction hash (.ok (tx, false)) (.ok head) recover (.ok r) (.ok b)).1.gasUsed
        = some (r.gasUsed : Int)
    ∧ (NewTransaction hash (.ok (tx, false)) (.ok head) recover (.ok r) (.ok b)).1.gasPrice
        = some (tx.gasTipCap + b.baseFee)
    ∧ (NewTransaction hash (.ok (tx, false)) (.ok head) recover (.ok r) (.ok b)).1.txFee
        = some ((tx.gasTipCap + b.baseFee) * (r.gasUsed : Int))
    ∧ (NewTransaction hash (.ok (tx, false)) (.ok head) recover (.ok r) (.ok b)).1.baseFee
        = some b.baseFee
    ∧ (NewTransaction hash (.ok (tx, false)) (.ok head) recover (.ok r) (.ok b)).1.burntFees
        = some ((r.gasUsed : Int) * b.baseFee)
    ∧ (NewTransaction hash (.ok (tx, false)) (.ok head) recover (.ok r) (.ok b)).1.maxFee
        = some tx.gasFeeCap
    ∧ (NewTransaction hash (.ok (tx, false)) (.ok head) recover (.ok r) (.ok b)).1.maxPriorityFee
        = some tx.gasTipCap := by
  simp only [NewTransaction, hrec, statusOfReceipt]
  by_cases htt : tx.txType = 2 <;>
    simp [htt] <;>
    refine ⟨fun h0 => by simp [h0], fun h1 => ?_, fun h0 h1 => by simp [h0, h1]⟩ <;>
    split_ifs <;> simp_all

/-- C4 witness: a receipt with status byte 7 derives an Unknown status, a nil
error, and fully populated mined fields. -/
theorem receipt_status_mapping_witness :
    (NewTransaction 1 (.ok (txLegacyFix, false)) (.ok headFix) recoverOK
        (.ok receiptOddFix) (.ok inclFix)).2 = none
    ∧ (NewTransaction 1 (.ok (txLegacyFix, false)) (.ok headFix) recoverOK
        (.ok receiptOddFix) (.ok inclFix)).1.status = Status.unknown
    ∧ (NewTransaction 1 (.ok (txLegacyFix, false)) (.ok headFix) recoverOK
        (.ok receiptOddFix) (.ok inclFix)).1.gasUsed = some 21000 := by
  have h := receipt_status_mapping 1 txLegacyFix headFix recoverOK 3 receiptOddFix inclFix rfl
  exact ⟨h.1, h.2.2.2.1 (by decide) (by decide), by simpa using h.2.2.2.2.2.2.2.1⟩

/-- C5: when the transaction and head reads succeed but sender signature
recovery fails, the engine returns the partially populated snapshot (the
immediately-available transaction fields set, `from` unset) together with a
nil error — the recovery error is swallowed and the snapshot is not
discarded, whatever the pending flag or the remaining reads would do. -/
theorem recovery_failure_nonfatal (hash : Nat) (tx : TxData) (pending : Bool)
    (head : BlockData) (recover : SignerKind → Int → Except String Nat) (e : String)
    (receiptRes : Except String ReceiptData) (blockRes : Except String BlockData)
    (hrec : recoverFrom tx recover = .error e) :
    (NewTransaction hash (.ok (tx, pending)) (.ok head) recover receiptRes blockRes).2 = none
    ∧ (NewTransaction hash (.ok (tx, pending)) (.ok head) recover receiptRes blockRes).1.fromAddr
        = none
    ∧ (NewTransaction hash (.ok (tx, pending)) (.ok head) recover receiptRes blockRes).1
        = { Transaction.init hash with
            toAddr := tx.toAddr, value := some tx.value, txType := tx.txType,
            gasLimit := tx.gasLimit, nonce := tx.nonce, data := tx.data } := by
  simp only [NewTransaction, hrec]
  exact ⟨trivial, rfl, trivial⟩

/-- C5 witness: a fee-market transaction whose signature recovery fails is
returned with a nil error, `from` unset, and the transaction fields set. -/
theorem recovery_failure_nonfatal_witness :
    (NewTransaction 1 (.ok (txFeeMarketFix, false)) (.ok headFix) recoverFail
        (.ok receiptFix) (.ok inclFix)).2 = none
    ∧ (NewTransaction 1 (.ok (txFeeMarketFix, false)) (.ok headFix) recoverFail
        (.ok receiptFix) (.ok inclFix)).1.fromAddr = none := by
  have h := recovery_failure_nonfatal 1 txFeeMarketFix false headFix recoverFail
    "invalid signature" (.ok receiptFix) (.ok inclFix) rfl
  exact ⟨h.1, h.2.1⟩

/-- C10: for a transaction whose type byte is neither 0x0 nor 0x2, the
recovery switch consults no signer at all (the derivation result is
independent of the recovery oracle), the zero-valued message leaves `from`
set to the all-zero address rather than unset, and derivation completes
without error (shown for the pending path and for the mined path with
successful reads). -/
theorem unknown_type_zero_sender (hash : Nat) (tx : TxData) (pending : Bool)
    (head : BlockData)
    (receiptRes : Except String ReceiptData) (blockRes : Except String BlockData)
    (rec1 rec2 : SignerKind → Int → Except String Nat)
    (h0 : tx.txType ≠ 0) (h2 : tx.txType ≠ 2) :
    recoverFrom tx rec1 = .ok 0
    ∧ NewTransaction hash (.ok (tx, pending)) (.ok head) rec1 receiptRes blockRes
        = NewTransaction hash (.ok (tx, pending)) (.ok head) rec2 receiptRes blockRes
    ∧ (NewTransaction hash (.ok (tx, pending)) (.ok head) rec1 receiptRes blockRes).1.fromAddr
        = some 0
    ∧ (pending = true →
        (NewTransaction hash (.ok (tx, pending)) (.ok head) rec1 receiptRes blockRes).2 = none)
    ∧ (∀ (r : ReceiptData) (b : BlockData), receiptRes = .ok r → blockRes = .ok b →
        (NewTransaction hash (.ok (tx, pending)) (.ok head) rec1 receiptRes blockRes).2 = none) := by
  have hr1 : recoverFrom tx rec1 = .ok 0 := by simp [recoverFrom, h0, h2]
  have hr2 : recoverFrom tx rec2 = .ok 0 := by simp [recoverFrom, h0, h2]
  refine ⟨hr1, ?_, ?_, ?_, ?_⟩
  · simp only [NewTransaction, hr1, hr2]
  · simp only [NewTransaction, hr1]
    cases pending
    · cases receiptRes with
      | error e => simp
      | ok r =>
        cases blockRes with
        | error e => simp
        | ok b => by_cases htt : tx.txType = 2 <;> simp [htt]
    · simp
  · intro hp
    subst hp
    simp only [NewTransaction, hr1]
    simp
  · intro r b hrr hbb
    subst hrr hbb
    simp only [NewTransaction, hr1]
    cases pending
    · by_cases htt : tx.txType = 2 <;> simp [htt]
    · simp

/-- C10 witness: an access-list (type 0x1) transaction gets the all-zero
sender address, identical results under two different recovery oracles, and
a nil error on the mined path. -/
theorem unknown_type_zero_sender_witness :
    (NewTransaction 1 (.ok (txAccessListFix, false)) (.ok headFix) recoverFail
        (.ok receiptFix) (.ok inclFix)).1.fromAddr = some 0
    ∧ NewTransaction 1 (.ok (txAccessListFix, false)) (.ok headFix) recoverFail
        (.ok receiptFix) (.ok inclFix)
      = NewTransaction 1 (.ok (txAccessListFix, false)) (.ok headFix) recoverOK
        (.ok receiptFix) (.ok inclFix)
    ∧ (NewTransaction 1 (.ok (txAccessListFix, false)) (.ok headFix) recoverFail
        (.ok receiptFix) (.ok inclFix)).2 = none := by
  have h := unknown_type_zero_sender 1 txAccessListFix false headFix
    (.ok receiptFix) (.ok inclFix) recoverFail recoverOK (by decide) (by decide)
  exact ⟨h.2.2.1, h.2.1, h.2.2.2.2 receiptFix inclFix rfl rfl⟩

/-- A complete run of the engine on a fee-market (type 0x2) transaction
whose chain reads succeed but whose signature recovery fails. -/
def recoveryFailRun : Transaction × Option String :=
  NewTransaction 1 (.ok (txFeeMarketFix, false)) (.ok headFix) recoverFail
    (.ok receiptFix) (.ok inclFix)

/-- C1 counterexample: a snapshot the engine returns with a nil error whose
fee model is FeeMarket (type 0x2) and whose status is not Pending, yet
`priorityFeeSavings` is unpopulated — the recovery-failure early return
(source lines 183-185) skips the whole mined branch, so the "populated if"
direction of the claim fails on this output. -/
theorem priorityFeeSavings_counterexample :
    recoveryFailRun.1.txType = 2
    ∧ recoveryFailRun.1.status ≠ Status.pending
    ∧ recoveryFailRun.1.txSavings = none
    ∧ recoveryFailRun.2 = none := by
  refine ⟨rfl, by decide, rfl, rfl⟩

/-- C1 amended: for derivations in which sender recovery succeeds (and the
chain reads succeed), `priorityFeeSavings` is populated iff the fee model is
FeeMarket and the status is not Pending, and then it equals
`gasUsed × (maxFee − (baseFee + maxPriorityFee))` in exact signed
arbitrary-precision arithmetic, unclamped (so possibly negative). -/
theorem priorityFeeSavings_amended (hash : Nat) (tx : TxData) (head : BlockData)
    (recover : SignerKind → Int → Except String Nat) (fa : Nat)
    (hrec : recoverFrom tx recover = .ok fa) :
    (∀ (receiptRes : Except String ReceiptData) (blockRes : Except String BlockData),
      (NewTransaction hash (.ok (tx, true)) (.ok head) recover receiptRes blockRes).1.txSavings
        = none
      ∧ (NewTransaction hash (.ok (tx, true)) (.ok head) recover receiptRes blockRes).1.status
        = Status.pending)
    ∧ (∀ (r : ReceiptData) (b : BlockData),
      (NewTransaction hash (.ok (tx, false)) (.ok head) recover (.ok r) (.ok b)).1.txSavings
        = (if tx.txType = 2
            then some ((r.gasUsed : Int) * (tx.gasFeeCap - (b.baseFee + tx.gasTipCap)))
            else none)
      ∧ (NewTransaction hash (.ok (tx, false)) (.ok head) recover (.ok r) (.ok b)).1.status
        ≠ Status.pending) := by
  constructor
  · intro receiptRes blockRes
    simp only [NewTransaction, hrec]
    exact ⟨rfl, rfl⟩
  · intro r b
    constructor
    · simp only [NewTransaction, hrec]
      by_cases htt : tx.txType = 2 <;> simp [htt, Transaction.init]
    · simp only [NewTransaction, hrec, statusOfReceipt]
      by_cases htt : tx.txType = 2 <;> simp [htt] <;> split_ifs <;> simp

/-- C1 witness: a type-0x2 transaction with max fee 10, tip cap 2 mined under
base fee 20 yields savings 21000 × (10 − 22) = −252000 (negative, unclamped);
a legacy (type 0x0) mined transaction gets no savings; a pending fee-market
transaction gets no savings. -/
theorem priorityFeeSavings_amended_witness :
    (NewTransaction 1 (.ok (txFeeMarketFix, false)) (.ok headFix) recoverOK
        (.ok receiptFix) (.ok inclHighBaseFix)).1.txSavings = some (-252000)
    ∧ (NewTransaction 1 (.ok (txLegacyFix, false)) (.ok headFix) recoverOK
        (.ok receiptFix) (.ok inclFix)).1.txSavings = none
    ∧ (NewTransaction 1 (.ok (txFeeMarketFix, true)) (.ok headFix) recoverOK
        (.ok receiptFix) (.ok inclFix)).1.txSavings = none := by
  refine ⟨?_, ?_, ?_⟩
  · have h := ((priorityFeeSavings_amended 1 txFeeMarketFix headFix recoverOK 3 rfl).2
      receiptFix inclHighBaseFix).1
    simpa using h
  · have h := ((priorityFeeSavings_amended 1 txLegacyFix headFix recoverOK 3 rfl).2
      receiptFix inclFix).1
    simpa using h
  · exact ((priorityFeeSavings_amended 1 txFeeMarketFix headFix recoverOK 3 rfl).1
      (.ok receiptFix) (.ok inclFix)).1

/-- A fully derived mined fee-market snapshot (block time Unix 1600000000),
used to exhibit the formatter's dependence on the process clock. -/
def minedSnapFix : Transaction :=
  (NewTransaction 1 (.ok (txFeeMarketFix, false)) (.ok headFix) recoverOK
    (.ok receiptFix) (.ok inclFix)).1

/-- A pending fee-market snapshot as the engine derives it. -/
def pendingSnapFix : Transaction :=
  (NewTransaction 1 (.ok (txFeeMarketFix, true)) (.ok headFix) recoverOK
    (.ok receiptFix) (.ok inclFix)).1

/-- C8 counterexample: rendering is not a pure function of the snapshot
alone — the same mined snapshot rendered 100 seconds and 25 hours after its
block timestamp produces different output text, because `Transaction.String`
reads the process clock (`time.Now()`) for the relative-age line. -/
theorem render_clock_counterexample :
    minedSnapFix.render ((1600000000 + 100) * 1000000000)
      ≠ minedSnapFix.render ((1600000000 + 90000) * 1000000000) := by
  set_option maxRecDepth 100000 in decide

/-- C8 amended: rendering is a deterministic function of the snapshot and
the current clock reading; for a Pending snapshot the clock is never read,
so the output is a pure function of the snapshot alone. -/
theorem render_deterministic_amended (t : Transaction) (n1 n2 : Int)
    (hp : t.status = Status.pending) :
    t.render n1 = t.render n2 := by
  unfold Transaction.render
  simp only [hp, if_true]

/-- C8 witness: a pending snapshot renders identically at two different
clock readings. -/
theorem render_deterministic_amended_witness :
    pendingSnapFix.render 0 = pendingSnapFix.render 999999999999999 :=
  render_deterministic_amended pendingSnapFix 0 999999999999999 rfl

/-- C6 counterexample: a pending fee-market snapshot derived by the engine,
rendered in full — the block, timestamp, gas-used and nonce-position slots
hold placeholder text, but the transaction-fee slot holds the numeric "0"
(printed as "0 Ether") and the base-fee slot holds "0", not "Pending" as the
claim states (source lines 89 and 91 assign `"0"`, not `"Pending"`). -/
theorem pending_fee_zero_counterexample :
    pendingSnapFix.status = Status.pending
    ∧ pendingSnapFix.txType = 2
    ∧ pendingSnapFix.render 0
      = some ("Transaction Hash:         " ++ hashString 1 ++
        "\nBlock:                    " ++ "(Pending)" ++
        "\nTimestamp:                " ++ "Pending" ++
        "\nFrom:                     " ++ addressString 3 ++
        "\nTo:                       " ++ addressString 4 ++
        "\nValue:                    " ++ weiToGweiText 5 ++ " Ether" ++
        "\nTransaction Fee:          " ++ "0" ++ " Ether" ++
        "\nGas Price:                " ++ weiToEtherText 5 ++ " Ether (" ++ weiToGweiText 5 ++ " Gwei)" ++
        "\nTxn Type:                 " ++ toString 2 ++ " (" ++ txTypeMessage 2 ++ ")" ++
        "\nGas Limit:                " ++ toString 21000 ++
        "\nGas Used By Transaction:  " ++ "Pending" ++
        "\nBase Fee Per Gas:         " ++ "0" ++
        maxFeeLine 0 ++ maxPriorityLine 0 ++ "" ++
        "\nNonce (position):         " ++ toString 9 ++ " (" ++ "Pending" ++ ")" ++
        "\nInput Data:               " ++ bytesHex [1, 2] ++
        "\n") :=
  ⟨rfl, rfl, rfl⟩

/-- C6 amended: a Pending snapshot renders with placeholder text for the
block ("(Pending)"), timestamp, gas-used and nonce-position slots, but the
transaction-fee and base-fee slots render as the literal "0" ("0 Ether" /
"0") rather than placeholder text; no receipt- or block-derived numeric
values appear since none are read in the pending branch. -/
theorem pending_placeholder_amended (t : Transaction) (now : Int) (f a : Nat)
    (v gp mf mpf : Int)
    (hp : t.status = Status.pending)
    (hf : t.fromAddr = some f) (ht : t.toAddr = some a)
    (hv : t.value = some v) (hg : t.gasPrice = some gp)
    (hm : t.txType = 2 → t.maxFee = some mf ∧ t.maxPriorityFee = some mpf) :
    t.render now = some (
      "Transaction Hash:         " ++ hashString t.hash ++
      "\nBlock:                    " ++ "(Pending)" ++
      "\nTimestamp:                " ++ "Pending" ++
      "\nFrom:                     " ++ addressString f ++
      "\nTo:                       " ++ addressString a ++
      "\nValue:                    " ++ weiToGweiText v ++ " Ether" ++
      "\nTransaction Fee:          " ++ "0" ++ " Ether" ++
      "\nGas Price:                " ++ weiToEtherText gp ++ " Ether (" ++ weiToGweiText gp ++ " Gwei)" ++
      "\nTxn Type:                 " ++ toString t.txType ++ " (" ++ txTypeMessage t.txType ++ ")" ++
      "\nGas Limit:                " ++ toString t.gasLimit ++
      "\nGas Used By Transaction:  " ++ "Pending" ++
      "\nBase Fee Per Gas:         " ++ "0" ++
      (if t.txType = 2 then maxFeeLine mf else "") ++
      (if t.txType = 2 then maxPriorityLine mpf else "") ++ "" ++
      "\nNonce (position):         " ++ toString t.nonce ++ " (" ++ "Pending" ++ ")" ++
      "\nInput Data:               " ++ bytesHex t.data ++
      "\n") := by
  by_cases htt : t.txType = 2
  · obtain ⟨hmf, hmpf⟩ := hm htt
    unfold Transaction.render
    simp only [hp, hf, ht, hv, hg, hmf, hmpf, htt, if_true, Option.some_bind]
    rfl
  · unfold Transaction.render
    simp only [hp, hf, ht, hv, hg, htt, if_true, if_false, Option.some_bind]
    rfl

/-- C6 witness: the amended pending-report shape, instantiated at the
engine-derived pending snapshot. -/
theorem pending_placeholder_amended_witness :
    pendingSnapFix.render 7 = some (
      "Transaction Hash:         " ++ hashString pendingSnapFix.hash ++
      "\nBlock:                    " ++ "(Pending)" ++
      "\nTimestamp:                " ++ "Pending" ++
      "\nFrom:                     " ++ addressString 3 ++
      "\nTo:                       " ++ addressString 4 ++
      "\nValue:                    " ++ weiToGweiText 5 ++ " Ether" ++
      "\nTransaction Fee:          " ++ "0" ++ " Ether" ++
      "\nGas Price:                " ++ weiToEtherText 5 ++ " Ether (" ++ weiToGweiText 5 ++ " Gwei)" ++
      "\nTxn Type:                 " ++ toString pendingSnapFix.txType ++ " (" ++
        txTypeMessage pendingSnapFix.txType ++ ")" ++
      "\nGas Limit:                " ++ toString pendingSnapFix.gasLimit ++
      "\nGas Used By Transaction:  " ++ "Pending" ++
      "\nBase Fee Per Gas:         " ++ "0" ++
      (if pendingSnapFix.txType = 2 then maxFeeLine 0 else "") ++
      (if pendingSnapFix.txType = 2 then maxPriorityLine 0 else "") ++ "" ++
      "\nNonce (position):         " ++ toString pendingSnapFix.nonce ++ " (" ++ "Pending" ++ ")" ++
      "\nInput Data:               " ++ bytesHex pendingSnapFix.data ++
      "\n") :=
  pending_placeholder_amended pendingSnapFix 7 3 4 5 5 0 0 rfl rfl rfl rfl rfl
    (fun _ => ⟨rfl, rfl⟩)

end EthTxPrint
